import Mathlib

/-!
Verification of the hamsterdb default btree node layout and environment
front-end (repository snapshot under review).

The development shallowly embeds the C++ sources:

* `src/btree_impl_default.h` — `UpfrontIndex` (the per-node slot index with
  freelist), `DuplicateRecordList` thresholds, `DefLayout::BinaryKeyList`
  (variable-length keys with extended-key overflow), the duplicate record
  lists' inline counter accessors, and the compiled (not `#if 0`-disabled)
  `DefaultNodeImpl` operations.
* `src/3btree/btree_index.cc` — `BtreeIndex::find_leaf` approximate matching.
* `src/4env/env_local.cc` — `LocalEnvironment::open` header validation and
  `LocalEnvironment::create_db` parameter handling.

Node memory is modelled as a `List Nat` of bytes (each < 256) with explicit
little-endian 16/32/64-bit reads and writes, exactly mirroring the pointer
arithmetic of the source.  All definitions are executable so that concrete
machine states can be evaluated inside proofs by `decide`.
-/

set_option autoImplicit false

namespace Hamsterdb

/-! ### Byte-level memory primitives

The node payload is a flat byte buffer (`ham_u8_t *m_data`).  We model it as
a `List Nat`; out-of-range reads return 0 and out-of-range writes are
dropped (`List.set` is the identity out of range), which keeps every
operation total.  The concrete states evaluated below never rely on this
padding behaviour.  The host is little-endian, so `ham_db2h16`/`ham_h2db16`
and friends are identities and multi-byte accesses decompose into byte
reads/writes. -/

/-- Reads one byte. -/
def rd8 (d : List Nat) (p : Nat) : Nat := d.getD p 0

/-- Writes one byte (truncated to 8 bits). -/
def wr8 (d : List Nat) (p v : Nat) : List Nat := d.set p (v % 256)

/-- Reads a little-endian 16-bit value. -/
def rd16 (d : List Nat) (p : Nat) : Nat := rd8 d p + 256 * rd8 d (p + 1)

/-- Writes a little-endian 16-bit value (truncated to 16 bits, as the
source casts through `ham_u16_t`). -/
def wr16 (d : List Nat) (p v : Nat) : List Nat :=
  wr8 (wr8 d p v) (p + 1) (v / 256)

/-- Reads a little-endian 32-bit value. -/
def rd32 (d : List Nat) (p : Nat) : Nat :=
  rd8 d p + 256 * rd8 d (p + 1) + 65536 * rd8 d (p + 2) + 16777216 * rd8 d (p + 3)

/-- Writes a little-endian 32-bit value (truncated to 32 bits). -/
def wr32 (d : List Nat) (p v : Nat) : List Nat :=
  wr8 (wr8 (wr8 (wr8 d p v) (p + 1) (v / 256)) (p + 2) (v / 65536)) (p + 3) (v / 16777216)

/-- Reads a little-endian 64-bit value. -/
def rd64 (d : List Nat) (p : Nat) : Nat :=
  rd32 d p + 4294967296 * rd32 d (p + 4)

/-- Copies `len` bytes from position `src` to position `dst` inside one
buffer.  All reads are taken from the original buffer, which is exactly the
semantics of `memmove` (and of the non-overlapping `memcpy` uses below). -/
def copyBytes (d : List Nat) (dst src len : Nat) : List Nat :=
  (List.range len).foldl (fun acc k => acc.set (dst + k) (rd8 d (src + k))) d

/-- Copies `len` bytes from position `src` of buffer `s` to position `dst`
of buffer `d` (a `memcpy` between two distinct buffers). -/
def copyAcross (d : List Nat) (dst : Nat) (s : List Nat) (src len : Nat) : List Nat :=
  (List.range len).foldl (fun acc k => acc.set (dst + k) (rd8 s (src + k))) d

/-! ### UpfrontIndex

Source: `src/btree_impl_default.h`, class `DefLayout::UpfrontIndex`
(lines 494-864).  The persisted header is
`{capacity : u32 @0, freelist_count : u32 @4, next_offset : u32 @8,
full_size : u32 @12}` followed by `capacity` index entries.  The claims all
concern page sizes at most 64 KiB, for which the constructor picks
`m_sizeof_offset = 2`; an index entry is therefore
`{offset : u16, size : u16}` and `get_full_index_size() = 4`.
`m_rearrange_counter` is a non-persistent member of the in-memory object. -/

/-- State of an `UpfrontIndex`: the node bytes plus the in-memory
rearrange counter. -/
structure UpfrontIndex where
  m_data : List Nat
  m_rearrange_counter : Nat
deriving DecidableEq, Repr

namespace UpfrontIndex

/-- Offset of the first index entry (`kPayloadOffset`). -/
def kPayloadOffset : Nat := 16

/-- Size of one index entry: `m_sizeof_offset (= 2) + kSizeofSize (= 2)`. -/
def get_full_index_size : Nat := 4

/-- Reads the capacity field. -/
def get_capacity (st : UpfrontIndex) : Nat := rd32 st.m_data 0

/-- Writes the capacity field. -/
def set_capacity (st : UpfrontIndex) (capacity : Nat) : UpfrontIndex :=
  { st with m_data := wr32 st.m_data 0 capacity }

/-- Reads the freelist counter. -/
def get_freelist_count (st : UpfrontIndex) : Nat := rd32 st.m_data 4

/-- Writes the freelist counter. -/
def set_freelist_count (st : UpfrontIndex) (freelist_count : Nat) : UpfrontIndex :=
  { st with m_data := wr32 st.m_data 4 freelist_count }

/-- Writes the cached next-offset field. -/
def set_next_offset (st : UpfrontIndex) (next_offset : Nat) : UpfrontIndex :=
  { st with m_data := wr32 st.m_data 8 next_offset }

/-- Reads the full size of the managed range. -/
def get_full_size (st : UpfrontIndex) : Nat := rd32 st.m_data 12

/-- Writes the full size of the managed range. -/
def set_full_size (st : UpfrontIndex) (full_size : Nat) : UpfrontIndex :=
  { st with m_data := wr32 st.m_data 12 full_size }

/-- Reads the chunk offset of entry `slot` (2-byte offsets). -/
def get_chunk_offset (st : UpfrontIndex) (slot : Nat) : Nat :=
  rd16 st.m_data (kPayloadOffset + get_full_index_size * slot)

/-- Writes the chunk offset of entry `slot` (the source casts the offset
through `ham_u16_t`). -/
def set_chunk_offset (st : UpfrontIndex) (slot offset : Nat) : UpfrontIndex :=
  { st with m_data := wr16 st.m_data (kPayloadOffset + get_full_index_size * slot) offset }

/-- Reads the chunk size of entry `slot`. -/
def get_chunk_size (st : UpfrontIndex) (slot : Nat) : Nat :=
  rd16 st.m_data (kPayloadOffset + get_full_index_size * slot + 2)

/-- Writes the chunk size of entry `slot`. -/
def set_chunk_size (st : UpfrontIndex) (slot size : Nat) : UpfrontIndex :=
  { st with m_data := wr16 st.m_data (kPayloadOffset + get_full_index_size * slot + 2) size }

/-- Increments the rearrange counter (`increase_rearrange_counter`). -/
def increase_rearrange_counter (st : UpfrontIndex) : UpfrontIndex :=
  { st with m_rearrange_counter := st.m_rearrange_counter + 1 }

/-- Re-arranging the node (source lines 774-780): despite its documentation
("moves all keys sequentially to the beginning of the key space, removes the
whole freelist") the compiled body only resets `m_rearrange_counter` to 0 and
returns. -/
def rearrange (st : UpfrontIndex) (_count : Nat) : UpfrontIndex :=
  { st with m_rearrange_counter := 0 }

/-- Initialization routine `allocate(data, capacity, full_size_bytes)` run
on a zeroed buffer of `full_size` bytes (a fresh node). -/
def upfront_allocate (capacity full_size : Nat) : UpfrontIndex :=
  let st : UpfrontIndex := { m_data := List.replicate full_size 0, m_rearrange_counter := 0 }
  let st := st.set_capacity capacity
  let st := st.set_freelist_count 0
  let st := st.set_full_size full_size
  st.set_next_offset (kPayloadOffset + capacity * get_full_index_size)

/-- Calculates the next offset from the entries (`calc_next_offset`). -/
def calc_next_offset (st : UpfrontIndex) (count : Nat) : Nat :=
  let total_count := count + st.get_freelist_count
  (List.range total_count).foldl
    (fun next_offset i =>
      let next := st.get_chunk_offset i + st.get_chunk_size i
      if next ≥ next_offset then next else next_offset) 0

/-- Reads the cached next offset; if the stored value is `(ham_u32_t)-1` it
is recomputed and stored (`get_next_offset`). -/
def get_next_offset (st : UpfrontIndex) (count : Nat) : Nat × UpfrontIndex :=
  let ret := rd32 st.m_data 8
  if ret = 4294967295 then
    let ret := st.calc_next_offset count
    (ret, st.set_next_offset ret)
  else
    (ret, st)

/-- Returns true if the index has at least one free slot (`can_insert_slot`).
`count` is the number of used slots, managed by the caller. -/
def can_insert_slot (st : UpfrontIndex) (count : Nat) : Bool :=
  if count < st.get_capacity then true else st.get_freelist_count > 0

/-- Inserts a slot at position `slot` with the given offset and size
(`insert_slot`).  The index entries from `slot` on (used and freelist) are
shifted right by one entry before the new entry is written. -/
def insert_slot (st : UpfrontIndex) (slot count offset size : Nat) : UpfrontIndex :=
  let slot_size := get_full_index_size
  let total_count := count + st.get_freelist_count
  let p := kPayloadOffset + slot_size * slot
  let st :=
    if total_count > 0 ∧ slot < total_count then
      { st with m_data := copyBytes st.m_data (p + get_full_index_size) p
                            (slot_size * (total_count - slot)) }
    else st
  { st with m_data := wr16 (wr16 st.m_data p offset) (p + 2) size }

/-- Erases the slot at position `slot` (`erase_slot`): the freelist counter
is incremented and the rearrange counter bumped; unless the erased slot is
the last used one, its chunk is copied to the end of the freelist and the
following entries are shifted left.  The used counter is decremented by the
caller. -/
def erase_slot (st : UpfrontIndex) (slot count : Nat) : UpfrontIndex :=
  let slot_size := get_full_index_size
  let total_count := count + st.get_freelist_count
  let st := st.set_freelist_count (st.get_freelist_count + 1)
  let st := st.increase_rearrange_counter
  -- nothing to do if we delete the very last used slot
  if slot + 1 = count then st
  else
    let chunk_offset := st.get_chunk_offset slot
    let chunk_size := st.get_chunk_size slot
    let st := st.set_chunk_offset total_count chunk_offset
    let st := st.set_chunk_size total_count chunk_size
    let p := kPayloadOffset + slot_size * slot
    { st with m_data := copyBytes st.m_data p (p + get_full_index_size)
                          (slot_size * (total_count - slot)) }

/-- Scans the freelist entries `[count, count + freelist_count)` for the
first chunk of size at least `num_bytes`, returning its position. -/
def freelist_find (st : UpfrontIndex) (count num_bytes : Nat) : Option Nat :=
  (List.range st.get_freelist_count).find?
    (fun j => st.get_chunk_size (count + j) ≥ num_bytes) |>.map (fun j => count + j)

/-- Returns true if the page can provide `num_bytes` of chunk space
(`can_allocate_space`): first try the tail, then the freelist, then — if the
rearrange counter is positive — call `rearrange` and try once more.  The
source expresses the retry as a recursive call; since `rearrange` zeroes the
counter, the recursion performs exactly one repeat, which is unfolded
here. -/
def can_allocate_space (st : UpfrontIndex) (count num_bytes : Nat) : Bool × UpfrontIndex :=
  let (next, st) := st.get_next_offset count
  if next + num_bytes ≤ st.get_full_size then (true, st)
  else if (st.freelist_find count num_bytes).isSome then (true, st)
  else if st.m_rearrange_counter > 0 then
    let st := st.rearrange count
    let (next, st) := st.get_next_offset count
    if next + num_bytes ≤ st.get_full_size then (true, st)
    else if (st.freelist_find count num_bytes).isSome then (true, st)
    else (false, st)
  else (false, st)

/-- Allocates `num_bytes` of chunk space for `slot` (`allocate_space`),
returning the chunk offset: bump-allocate at the tail if it fits, otherwise
reuse the first fitting freelist chunk.  When a freelist chunk at position
`i` is reused, the source "removes" it with
`memcpy(p, p + get_full_index_size(), total_count - i - 1)` where `p` points
at entry `slot` — both the position (`slot` instead of `i`) and the length
(bytes instead of entries) are taken verbatim from the source.  If neither
step succeeds the source hits `ham_assert(!"shouldn't be here")` and
returns `(ham_u32_t)-1`. -/
def allocate_space (st : UpfrontIndex) (count slot num_bytes : Nat) : Nat × UpfrontIndex :=
  let (next, st) := st.get_next_offset count
  if next + num_bytes ≤ st.get_full_size then
    let offset := next
    let st := st.set_next_offset (offset + num_bytes)
    let st := st.set_chunk_offset slot offset
    let st := st.set_chunk_size slot num_bytes
    (offset, st)
  else
    let total_count := count + st.get_freelist_count
    match st.freelist_find count num_bytes with
    | some i =>
        let st := st.set_chunk_size slot (st.get_chunk_size i)
        let st := st.set_chunk_offset slot (st.get_chunk_offset i)
        let p := kPayloadOffset + get_full_index_size * slot
        let st := { st with m_data := copyBytes st.m_data p (p + get_full_index_size)
                              (total_count - i - 1) }
        let st := st.set_freelist_count (st.get_freelist_count - 1)
        (st.get_chunk_offset slot, st)
    | none => (4294967295, st)

/-- Returns true when a key cannot be inserted without splitting
(`requires_split`): no free slot available and no space allocatable. -/
def requires_split (st : UpfrontIndex) (count key_size : Nat) : Bool × UpfrontIndex :=
  if st.can_insert_slot count then (false, st)
  else
    let (ok, st) := st.can_allocate_space count key_size
    (!ok, st)

/-- Lexicographic comparison on `(offset, size)` pairs, matching
`std::sort` over `std::pair<ham_u32_t, ham_u32_t>`. -/
def rangeLe (a b : Nat × Nat) : Bool :=
  if a.1 = b.1 then a.2 ≤ b.2 else a.1 < b.1

/-- Insertion into a sorted list of ranges. -/
def insertRange (x : Nat × Nat) : List (Nat × Nat) → List (Nat × Nat)
  | [] => [x]
  | y :: ys => if rangeLe x y then x :: y :: ys else y :: insertRange x ys

/-- Sorts ranges as `std::sort` does (lexicographically). -/
def sortRanges (l : List (Nat × Nat)) : List (Nat × Nat) :=
  l.foldr insertRange []

/-- Checks that adjacent sorted ranges do not overlap. -/
def rangesDisjoint : List (Nat × Nat) → Bool
  | [] => true
  | [_] => true
  | a :: b :: rest => if a.1 + a.2 > b.1 then false else rangesDisjoint (b :: rest)

/-- Integrity check over the used and freelist entries (`check_integrity`,
source lines 696-733): collects all `(offset, size)` ranges, sorts them,
verifies that no two overlap and that the maximal `offset + size` equals
both the cached and the recomputed next offset.  Returns `false` exactly
when the source throws `HAM_INTEGRITY_VIOLATED`. -/
def check_integrity (st : UpfrontIndex) (count : Nat) : Bool :=
  let total_count := count + st.get_freelist_count
  let ranges := (List.range total_count).map
    (fun i => (st.get_chunk_offset i, st.get_chunk_size i))
  let next_offset := ranges.foldl
    (fun acc r => if r.1 + r.2 ≥ acc then r.1 + r.2 else acc) 0
  rangesDisjoint (sortRanges ranges) &&
    next_offset = (st.get_next_offset count).1 &&
    next_offset = st.calc_next_offset count

/-- Modelled from the spec: `UpfrontIndex::clear()` is called by `split` and
`merge_from` but is not defined anywhere in the revision under `src/`.  The
spec requires the split target to be an "empty sibling", so `clear` is
modelled as re-establishing the empty state that `allocate` produces: no
freelist entries and the next offset at the start of the chunk space. -/
def clear (st : UpfrontIndex) : UpfrontIndex :=
  let st := st.set_freelist_count 0
  st.set_next_offset (kPayloadOffset + st.get_capacity * get_full_index_size)

/-- Splits the index (`split`, source lines 738-756): after clearing
`other`, the loop runs `i` over `[pivot, pivot + count)` — taken verbatim
from the source — inserting a slot into `other`, allocating space there,
then writing the returned offset into entry `i - pivot` of *this* index
(`set_chunk_offset(i - pivot, offset)`) and copying the chunk bytes to
`&other->m_data[i - pivot]` (a raw byte position).  Finally the rearrange
counter grows by `count`. -/
def split (self other : UpfrontIndex) (count pivot : Nat) : UpfrontIndex × UpfrontIndex :=
  let other := other.clear
  let (self, other) := (List.range count).foldl
    (fun (p : UpfrontIndex × UpfrontIndex) k =>
      let (self, other) := p
      let i := pivot + k
      let size := self.get_chunk_size i
      let other := other.insert_slot (i - pivot) (i - pivot) 0 size
      let (offset, other) := other.allocate_space (i - pivot) (i - pivot) size
      let self := self.set_chunk_offset (i - pivot) offset
      let other := { other with m_data := copyAcross other.m_data (i - pivot)
                                  self.m_data (self.get_chunk_offset i) size }
      (self, other)) (self, other)
  ({ self with m_rearrange_counter := self.m_rearrange_counter + count }, other)

/-- Merges from the other index (`merge_from`, source lines 759-769): the
compiled body rearranges `self` when the counter is set, runs a loop over
`other_count` whose body is empty (only a TODO comment in the source), and
clears `other`.  No chunk is ever copied. -/
def merge_from (self other : UpfrontIndex) (count _other_count : Nat) :
    UpfrontIndex × UpfrontIndex :=
  let self := if self.m_rearrange_counter ≠ 0 then self.rearrange count else self
  (self, other.clear)

/-- Extracts the bytes of the chunk referenced by entry `slot` (used below
to compare node contents before and after split/merge). -/
def chunkBytes (st : UpfrontIndex) (slot : Nat) : List Nat :=
  (List.range (st.get_chunk_size slot)).map
    (fun k => rd8 st.m_data (st.get_chunk_offset slot + k))

end UpfrontIndex

/-! ### Thresholds

Source: `DuplicateRecordList::DuplicateRecordList` (lines 1110-1128) and
`DefLayout::BinaryKeyList::BinaryKeyList` (lines 875-888).  Both start from
the global test override (`Globals::ms_duplicate_threshold` resp.
`Globals::ms_extended_threshold`, 0 unless a test sets it). -/

/-- Duplicate threshold as initialized by the `DuplicateRecordList`
constructor.  In the source, the chain
`if (page_size == 1024) m_duplicate_threshold = 32; else if (page_size <=
1024 * 8) ... = 64; else if (page_size <= 1024 * 16) ... = 128;` is followed
by the unguarded statement `m_duplicate_threshold = 0x7f;` — there is no
`else` in front of it, so it runs unconditionally and the chain's result is
dead.  The translation keeps the dead chain for comparison with the
source. -/
def duplicate_threshold_init (ms_duplicate_threshold page_size : Nat) : Nat :=
  if ms_duplicate_threshold ≠ 0 then ms_duplicate_threshold
  else
    let _dead :=
      if page_size = 1024 then 32
      else if page_size ≤ 1024 * 8 then 64
      else if page_size ≤ 1024 * 16 then 128
      else 0
    -- 0x7f/127 is the maximum that the 7-bit record counter can store;
    -- in the source this assignment always overwrites the chain above
    0x7f

/-- Extended-key threshold as initialized by the `BinaryKeyList`
constructor: 64 for page size 1024, 128 up to 8 KiB, 256 beyond (this chain
does carry its final `else`). -/
def extended_threshold_init (ms_extended_threshold page_size : Nat) : Nat :=
  if ms_extended_threshold ≠ 0 then ms_extended_threshold
  else if page_size = 1024 then 64
  else if page_size ≤ 1024 * 8 then 128
  else 256

/-! ### Inline duplicate counter

Source: `DuplicateInlineRecordList` (lines 1428-1437) and
`DuplicateDefaultRecordList` (lines 1789-1798); the two classes carry
byte-identical accessors.  The chunk's first byte holds the counter in bits
0-6 and the `kExtendedDuplicates` flag in bit 7 (value `0x80`).  `offset` is
the slot's chunk offset `m_index.get_chunk_offset(slot)`. -/

/-- Reads the inline record counter: `m_data[offset] & 0x7f`. -/
def get_inline_record_count (m_data : List Nat) (offset : Nat) : Nat :=
  rd8 m_data offset &&& 0x7f

/-- Writes the inline record counter:
`m_data[offset] = count | (m_data[offset] & 0xf0)` — the mask `0xf0` is
taken verbatim from the source. -/
def set_inline_record_count (m_data : List Nat) (offset count : Nat) : List Nat :=
  wr8 m_data offset (count ||| (rd8 m_data offset &&& 0xf0))

/-! ### BinaryKeyList (variable-length keys)

Source: `DefLayout::BinaryKeyList` (lines 869-1099).  The key list shares
its byte buffer with its `UpfrontIndex`; a slot's chunk starts with
`{key_size : u16, key_flags : u8, key_bytes...}`.  For an extended key the
inline key bytes are the 8-byte blob id. -/

/-- Flag bit `BtreeKey::kExtendedKey`.  The numeric value lives in a btree
header that is not under `src/`; only its role as one dedicated bit of the
flags byte matters for the properties below. -/
def kExtendedKey : Nat := 0x04

namespace BinaryKeyList

/-- Returns the size of the key at `slot` (`get_key_size`). -/
def get_key_size (st : UpfrontIndex) (slot : Nat) : Nat :=
  rd16 st.m_data (st.get_chunk_offset slot)

/-- Returns the flags of the key at `slot` (`get_key_flags`). -/
def get_key_flags (st : UpfrontIndex) (slot : Nat) : Nat :=
  rd8 st.m_data (st.get_chunk_offset slot + 2)

/-- Returns the blob id of an extended key, read from the 8 inline key-data
bytes (`get_extended_blob_id`). -/
def get_extended_blob_id (st : UpfrontIndex) (slot : Nat) : Nat :=
  rd64 st.m_data (st.get_chunk_offset slot + 3)

/-- Integrity check of the key list (`BinaryKeyList::check_integrity`,
lines 974-1015; the trailing offset/overlap section of that function is
`#if 0`-disabled in the source and hence not part of the compiled check).
`blobs` maps a blob id to its stored bytes (`none` when the blob manager
cannot read it) and `cache` is the extended-key cache.  Returns `false`
exactly when the source throws `HAM_INTEGRITY_VIOLATED` (or the blob read
throws). -/
def check_integrity (st : UpfrontIndex) (count threshold : Nat)
    (blobs : Nat → Option (List Nat)) (cache : Nat → Option (List Nat)) : Bool :=
  (List.range count).all fun i =>
    if get_key_size st i > threshold ∧ get_key_flags st i &&& kExtendedKey = 0 then
      false
    else if get_key_flags st i &&& kExtendedKey ≠ 0 then
      let blobid := get_extended_blob_id st i
      if blobid = 0 then false
      else
        match blobs blobid with
        | none => false
        | some record =>
          match cache blobid with
          | none => true
          | some cached => record.length = cached.length ∧ record = cached
    else true

end BinaryKeyList

/-! ### Compiled DefaultNodeImpl operations

Source: `DefaultNodeImpl` (lines 1826-2169).  In this revision the node
proxy's `insert` body is entirely enclosed in `#if 0 ... #endif`
(lines 2015-2029) and `find_child` consists of the single statement
`return (0);` (lines 1888-1893).  The fully implemented variants of both
operations appear only in the `#if 0` region spanning lines 2171-4732. -/

/-- Minimal state of a default-layout node: its page bytes and the used-slot
count of its `PBtreeNode` header. -/
structure DefaultNodeImpl where
  page_bytes : List Nat
  node_count : Nat
deriving DecidableEq, Repr

/-- Compiled `DefaultNodeImpl::insert(slot, key)`: the whole body is
preprocessor-disabled, so the call returns with the node untouched. -/
def DefaultNodeImpl.insert (self : DefaultNodeImpl) (_slot : Nat)
    (_key : List Nat) : DefaultNodeImpl :=
  self

/-- Compiled `DefaultNodeImpl::find_child(key, comparator, precord_id,
pcmp)`: the body is `return (0);`.  The first component is the returned
slot; the second counts comparator invocations, of which there are none. -/
def DefaultNodeImpl.find_child (_self : DefaultNodeImpl)
    (_key : List Nat) : Int × Nat :=
  (0, 0)

/-! ### BtreeIndex::find_leaf

Source: `src/3btree/btree_index.cc`, lines 140-182.  The function first asks
the node proxy for `slot` and `cmp` via `find_child`; the embedding below
abstracts that call by taking `slot` and `cmp` as inputs and transcribes the
flag handling that follows.  Flag bit values come from the public API header
(not under `src/`); only their distinctness matters. -/

/-- Flag `HAM_FIND_EXACT_MATCH`. -/
def kFindExactMatch : Nat := 0x4000

/-- Flag `HAM_FIND_LT_MATCH`. -/
def kFindLtMatch : Nat := 0x1000

/-- Flag `HAM_FIND_GT_MATCH`. -/
def kFindGtMatch : Nat := 0x2000

/-- Approximate-match tag `BtreeKey::kLower` (value modelled; defined in a
btree header not under `src/`). -/
def kLower : Nat := 1

/-- Approximate-match tag `BtreeKey::kGreater` (value modelled; defined in a
btree header not under `src/`). -/
def kGreater : Nat := 2

/-- Result of `find_leaf`: the returned slot and the value stored into
`*approx_match` (0 when no approximate tag was set). -/
def find_leaf (count : Nat) (slot cmp : Int) (flags : Nat) : Int × Nat :=
  if count = 0 then (-1, 0)
  else if cmp = 0 ∧ (flags = 0 ∨ flags &&& kFindExactMatch ≠ 0) then (slot, 0)
  else if flags &&& kFindLtMatch ≠ 0 then
    if cmp = 0 ∧ flags &&& kFindGtMatch ≠ 0 then (slot + 1, kLower)
    else if slot < 0 ∧ flags &&& kFindGtMatch ≠ 0 then (0, kGreater)
    else if cmp ≤ 0 then (slot - 1, kLower)
    else (slot, kLower)
  else if flags &&& kFindGtMatch ≠ 0 then (slot + 1, kGreater)
  else if cmp ≠ 0 then (-1, 0)
  else (slot, 0)

/-! ### Environment open validation

Source: `src/4env/env_local.cc`, `LocalEnvironment::open` (lines 126-248).
The function reads the first 512 bytes through a faked header page,
validates magic and version, and on any validation failure undoes the fake
page, closes the device and returns — the real header page, the page
manager and the journal are only created after the checks pass. -/

/-- Error kinds surfaced by the modelled environment front-end. -/
inductive HamStatus where
  | ok
  | invFileHeader
  | invFileVersion
  | invParameter
  | invKeySize
  | notImplemented
  | writeProtected
  | limitsReached
  | databaseAlreadyExists
deriving DecidableEq, Repr

/-- View of the data validated from the first 512 bytes of the file:
the four magic bytes and the version tuple `(maj, min, rev, file)`. -/
structure EnvFileHeader where
  magic0 : Nat
  magic1 : Nat
  magic2 : Nat
  magic3 : Nat
  verMaj : Nat
  verMin : Nat
  verRev : Nat
  verFile : Nat
deriving DecidableEq, Repr

/-- Outcome of `LocalEnvironment::open`: the returned status and which
pieces of environment state exist afterwards. -/
structure OpenOutcome where
  status : HamStatus
  deviceOpen : Bool
  headerPageLoaded : Bool
  pageManagerCreated : Bool
  journalOpened : Bool
deriving DecidableEq, Repr

/-- Header validation and state establishment of `LocalEnvironment::open`.
`ham_file_version` is the compiled-in `HAM_FILE_VERSION` constant (defined
in `1base/version.h`, not under `src/`), passed as a parameter.  The checks
mirror lines 183-218: magic must be `"HAM\0"`; the file version must equal
the current one; versions `1.0.rev` with `rev ≤ 9` are rejected.  On
failure the device is closed and no state is kept; on success the real
header page is fetched, the page manager created and — with recovery
enabled — the journal opened. -/
def local_env_open (hdr : EnvFileHeader) (ham_file_version : Nat)
    (enable_recovery : Bool) : OpenOutcome :=
  let fail : HamStatus → OpenOutcome := fun st =>
    { status := st, deviceOpen := false, headerPageLoaded := false,
      pageManagerCreated := false, journalOpened := false }
  if ¬(hdr.magic0 = 72 ∧ hdr.magic1 = 65 ∧ hdr.magic2 = 77 ∧ hdr.magic3 = 0) then
    fail .invFileHeader
  else if hdr.verFile ≠ ham_file_version then
    fail .invFileVersion
  else if hdr.verMaj = 1 ∧ hdr.verMin = 0 ∧ hdr.verRev ≤ 9 then
    fail .invFileVersion
  else
    { status := .ok, deviceOpen := true, headerPageLoaded := true,
      pageManagerCreated := true, journalOpened := enable_recovery }

/-! ### create_db

Source: `src/4env/env_local.cc`, `LocalEnvironment::create_db`
(lines 543-679).  Key types are the `HAM_TYPE_*` constants of the public
API; their numeric values are immaterial here, so an inductive type is
used. -/

/-- Key types accepted by `create_db` (`HAM_TYPE_*`). -/
inductive HamKeyType where
  | binary
  | custom
  | u8
  | u16
  | u32
  | u64
  | real32
  | real64
deriving DecidableEq, Repr

/-- Parameters recognized by the `create_db` parameter loop
(`HAM_PARAM_*`); `other` stands for any unrecognized parameter name. -/
inductive HamParam where
  | keyType (t : HamKeyType)
  | keySize (v : Nat)
  | recordSize (v : Nat)
  | recordCompression
  | keyCompression
  | other
deriving DecidableEq, Repr

/-- Database flags passed to `create_db`; `otherBits` is true when `flags`
carries a bit outside the accepted mask `HAM_FORCE_RECORDS_INLINE |
HAM_FLUSH_WHEN_COMMITTED | HAM_ENABLE_DUPLICATE_KEYS |
HAM_RECORD_NUMBER`. -/
structure CreateDbFlags where
  recordNumber : Bool
  enableDuplicateKeys : Bool
  forceRecordsInline : Bool
  flushWhenCommitted : Bool
  otherBits : Bool
deriving DecidableEq, Repr

/-- Value of `HAM_KEY_SIZE_UNLIMITED` (`(ham_u16_t)-1`). -/
def kKeySizeUnlimited : Nat := 0xffff

/-- Value of `HAM_RECORD_SIZE_UNLIMITED` (`(ham_u32_t)-1`). -/
def kRecordSizeUnlimited : Nat := 0xffffffff

/-- Parameter loop of `create_db` (lines 560-596), threading the running
`(key_type, key_size, rec_size)` triple and stopping at the first
offending parameter. -/
def create_db_parse_params (record_number : Bool) :
    List HamParam → HamKeyType × Nat × Nat →
      Except HamStatus (HamKeyType × Nat × Nat)
  | [], acc => .ok acc
  | p :: rest, (key_type, key_size, rec_size) =>
    match p with
    | .recordCompression => .error .notImplemented
    | .keyCompression => .error .notImplemented
    | .keyType t => create_db_parse_params record_number rest (t, key_size, rec_size)
    | .keySize v =>
      if v ≠ 0 then
        if v > 0xffff then .error .invKeySize
        else if record_number ∧ v > 0 ∧ v < 8 then .error .invKeySize
        else create_db_parse_params record_number rest (key_type, v, rec_size)
      else create_db_parse_params record_number rest (key_type, key_size, rec_size)
    | .recordSize v => create_db_parse_params record_number rest (key_type, key_size, v)
    | .other => .error .invParameter

/-- Returns true for the fixed-length numeric key types against which
`HAM_RECORD_NUMBER` is rejected (lines 598-608). -/
def isFixedLengthType : HamKeyType → Bool
  | .u8 => true
  | .u16 => true
  | .u32 => true
  | .real32 => true
  | .real64 => true
  | _ => false

/-- Result of `create_db`: the status, the descriptor name array afterwards
(`0` marks a free slot), and the key type/size the new database was created
with. -/
structure CreateDbResult where
  status : HamStatus
  descriptors : List Nat
  keyType : HamKeyType
  keySize : Nat
  recSize : Nat
deriving DecidableEq, Repr

/-- Translation of `LocalEnvironment::create_db`: the read-only check, the
parameter loop, the rejection of `HAM_RECORD_NUMBER` with a fixed-length
key type, the forcing of the key type to `HAM_TYPE_UINT64`, the flag-mask
check, the unique-name scan and the free-slot scan over the descriptor
array.  The final key-size forcing happens inside `LocalDatabase::create`,
which is not under `src/`; per the spec ("`RecordNumber` forces
`KeyType = U64` and `KeySize = 8`") it is modelled as setting the key size
to 8 for record-number databases.  On every error path the descriptor
array is returned unchanged. -/
def create_db (env_read_only : Bool) (flags : CreateDbFlags) (dbname : Nat)
    (params : List HamParam) (descriptors : List Nat) : CreateDbResult :=
  let err : HamStatus → CreateDbResult := fun st =>
    { status := st, descriptors := descriptors, keyType := .binary,
      keySize := kKeySizeUnlimited, recSize := kRecordSizeUnlimited }
  if env_read_only then err .writeProtected
  else
    match create_db_parse_params flags.recordNumber params
        (.binary, kKeySizeUnlimited, kRecordSizeUnlimited) with
    | .error st => err st
    | .ok (key_type, key_size, rec_size) =>
      if isFixedLengthType key_type ∧ flags.recordNumber then err .invParameter
      else
        let key_type := if flags.recordNumber then .u64 else key_type
        if flags.otherBits then err .invParameter
        else if descriptors.any (fun name => name ≠ 0 ∧ name = dbname) then
          err .databaseAlreadyExists
        else
          match (List.range descriptors.length).find? (fun i => descriptors.getD i 0 = 0) with
          | none => err .limitsReached
          | some dbi =>
            -- Modelled from the spec: LocalDatabase::create (not under
            -- src/) forces the key size of record-number databases to 8
            let key_size := if flags.recordNumber then 8 else key_size
            { status := .ok, descriptors := descriptors.set dbi dbname,
              keyType := key_type, keySize := key_size, recSize := rec_size }

/-! ### Concrete machine states

The following states are built exclusively through the embedded operations
(`upfront_allocate`, `insert_slot`, `allocate_space`, `erase_slot`), i.e.
they are reachable states of a default-layout node.  The caller-managed
used-slot count is threaded explicitly, as in the source. -/

/-- Fresh index with capacity 2 over a 44-byte range (chunk space starts at
byte 24). -/
def c2_s0 : UpfrontIndex := UpfrontIndex.upfront_allocate 2 44

/-- Slot 0 inserted with a 6-byte chunk: chunk `(24, 6)`, next offset 30. -/
def c2_s1 : UpfrontIndex := ((c2_s0.insert_slot 0 0 0 6).allocate_space 1 0 6).2

/-- Slot 1 inserted with a 10-byte chunk: chunk `(30, 10)`, next offset 40. -/
def c2_s2 : UpfrontIndex := ((c2_s1.insert_slot 1 1 0 10).allocate_space 2 1 10).2

/-- Slot 0 erased: the 6-byte chunk `(24, 6)` moves to the freelist, one
live slot `(30, 10)` remains and the rearrange counter is positive. -/
def c2_node : UpfrontIndex := c2_s2.erase_slot 0 2

/-- Fresh index with capacity 3 over a 48-byte range (chunk space starts at
byte 28), used for the split/merge scenario. -/
def c3_s0 : UpfrontIndex := UpfrontIndex.upfront_allocate 3 48

/-- Slot 0 inserted with a 6-byte chunk `(28, 6)`. -/
def c3_s1 : UpfrontIndex := ((c3_s0.insert_slot 0 0 0 6).allocate_space 1 0 6).2

/-- Slot 0's chunk filled with the key/record bytes `[1, 2, 3, 4, 5, 6]`
(what the key list would store there). -/
def c3_s1k : UpfrontIndex :=
  { c3_s1 with m_data := (List.range 6).foldl (fun d k => wr8 d (28 + k) (k + 1)) c3_s1.m_data }

/-- Slot 1 inserted with a 10-byte chunk `(34, 10)` (content all zero);
the node now has 2 live slots and passes `check_integrity`. -/
def c3_node : UpfrontIndex := ((c3_s1k.insert_slot 1 1 0 10).allocate_space 2 1 10).2

/-- Empty sibling for the split (capacity 2, 44-byte range). -/
def c3_sibling : UpfrontIndex := UpfrontIndex.upfront_allocate 2 44

/-- The pair of indexes after `split(sibling, count = 2, pivot = 1)`. -/
def c3_split : UpfrontIndex × UpfrontIndex := UpfrontIndex.split c3_node c3_sibling 2 1

/-- The original node after `merge_from(sibling)` (with 1 slot left in the
node and 1 slot in the sibling after the split). -/
def c3_after : UpfrontIndex := (UpfrontIndex.merge_from c3_split.1 c3_split.2 1 1).1

/-- Fresh index with capacity 3 over a 47-byte range, used for the
freelist-reuse scenario. -/
def c4_s0 : UpfrontIndex := UpfrontIndex.upfront_allocate 3 47

/-- Slot 0 inserted with a 10-byte chunk `(28, 10)`. -/
def c4_s1 : UpfrontIndex := ((c4_s0.insert_slot 0 0 0 10).allocate_space 1 0 10).2

/-- Slot 1 inserted with a 5-byte chunk `(38, 5)`. -/
def c4_s2 : UpfrontIndex := ((c4_s1.insert_slot 1 1 0 5).allocate_space 2 1 5).2

/-- Slot 2 inserted with a 4-byte chunk `(43, 4)`; the node is full
(next offset 47 = full size) and consistent. -/
def c4_s3 : UpfrontIndex := ((c4_s2.insert_slot 2 2 0 4).allocate_space 3 2 4).2

/-- Slot 0 erased: chunk `(28, 10)` joins the freelist. -/
def c4_s4 : UpfrontIndex := c4_s3.erase_slot 0 3

/-- Slot 0 erased again: chunk `(38, 5)` joins the freelist too; one live
slot `(43, 4)` and freelist `[(28, 10), (38, 5)]` remain. -/
def c4_s5 : UpfrontIndex := c4_s4.erase_slot 0 2

/-- A new slot 1 inserted asking for 6 bytes: the tail is full, so
`allocate_space` reuses the first fitting freelist chunk `(28, 10)` — and
its faulty freelist-removal `memcpy` leaves that chunk in the freelist while
decrementing the count, dropping `(38, 5)` instead. -/
def c4_s6 : UpfrontIndex := ((c4_s5.insert_slot 1 1 0 6).allocate_space 2 1 6).2

/-- Key-list node for the extended-key witness: one slot with chunk
`(20, 11)` holding `{key_size = 100, key_flags = kExtendedKey, blob id 1}`. -/
def c8_node : UpfrontIndex :=
  let st := UpfrontIndex.upfront_allocate 1 40
  let st := st.set_chunk_offset 0 20
  let st := st.set_chunk_size 0 11
  let st := st.set_next_offset 31
  { st with m_data := wr8 (wr8 (wr16 st.m_data 20 100) 22 kExtendedKey) 23 1 }

/-! ## Theorems -/

/-- C1: the spec's page-size-dependent duplicate threshold (32 when the
page size is 1024, 64 up to 8 KiB, 128 up to 16 KiB, 127 beyond) does not
match the code: the constructor's `if`/`else if` chain is followed by an
unguarded `m_duplicate_threshold = 0x7f;`, so the threshold is 127 for
every page size; in particular it is 127, not 32, at page size 1024. -/
theorem duplicate_threshold_always_127 :
    duplicate_threshold_init 0 1024 = 127 ∧
    duplicate_threshold_init 0 1024 ≠ 32 ∧
    duplicate_threshold_init 0 8192 = 127 ∧
    duplicate_threshold_init 0 16384 = 127 ∧
    duplicate_threshold_init 0 65536 = 127 := by
  decide

/-- C2: on a consistent node (one live 10-byte chunk, a 6-byte freelist
chunk, positive rearrange counter) a request for 8 bytes fails all three
steps of `can_allocate_space` — tail full, no fitting freelist chunk, and
`rearrange` only resets the counter instead of compacting — although
compacting the live chunks to the front of the chunk space (as the spec's
step 3 prescribes) would leave room: chunk-space start + live bytes + 8
fits into the full size. -/
theorem allocate_space_rearrange_is_stub :
    (c2_node.can_allocate_space 1 8).1 = false ∧
    c2_node.m_rearrange_counter > 0 ∧
    c2_node.check_integrity 1 = true ∧
    UpfrontIndex.kPayloadOffset + c2_node.get_capacity * UpfrontIndex.get_full_index_size
        + c2_node.get_chunk_size 0 + 8 ≤ c2_node.get_full_size := by
  decide

/-- C3: splitting a consistent 2-slot node at pivot 1 and merging the
sibling back does not restore the node: `split` overwrites the chunk
offsets of the original's low slots with offsets of the sibling, and
`merge_from`'s copy loop is empty, so slot 0's chunk content changes from
`[1, 2, 3, 4, 5, 6]` to bytes read from the wrong position. -/
theorem split_merge_does_not_restore :
    c3_node.check_integrity 2 = true ∧
    c3_node.chunkBytes 0 = [1, 2, 3, 4, 5, 6] ∧
    c3_after.chunkBytes 0 = [0, 0, 0, 0, 1, 2] ∧
    c3_after.chunkBytes 0 ≠ c3_node.chunkBytes 0 := by
  decide

/-- C4: a reachable `UpfrontIndex` state violates `check_integrity`.  The
sequence insert/insert/insert, erase, erase, insert-with-allocate (all via
the public operations, starting from a fresh index) passes the integrity
check at every intermediate state, but the final `allocate_space` reuses
freelist chunk `(28, 10)` without removing it from the freelist (its
removal `memcpy` shifts from the wrong position with a byte count that
forgets the entry width), leaving the chunk both live in slot 1 and in the
freelist — an overlap that makes `check_integrity` report a violation. -/
theorem upfront_index_integrity_violated :
    c4_s3.check_integrity 3 = true ∧
    c4_s4.check_integrity 2 = true ∧
    c4_s5.check_integrity 1 = true ∧
    c4_s6.get_chunk_offset 1 = 28 ∧
    c4_s6.get_chunk_offset 2 = 28 ∧
    c4_s6.get_freelist_count = 1 ∧
    c4_s6.check_integrity 2 = false := by
  decide

/-- C5 counterexample: with only the LT bit set and a probe that misses
(`find_child` returned slot 0 with `cmp = 1`, i.e. the probe is greater
than the key at slot 0), `find_leaf` returns slot 0 itself, not
`slot - 1 = -1` as the claim states. -/
theorem find_leaf_lt_miss_counterexample :
    kFindLtMatch &&& kFindLtMatch ≠ 0 ∧
    (1 : Int) ≠ 0 ∧
    find_leaf 1 0 1 kFindLtMatch = (0, kLower) ∧
    ((0 : Int) - 1) ≠ 0 := by
  decide

/-- C5 (amended): for a non-empty leaf, writing `slot`/`cmp` for the values
returned by `find_child`, `find_leaf` behaves as follows.  On an exact hit
(`cmp = 0`) with `flags = 0` or the EXACT bit set it returns the slot.
Otherwise, with the LT bit set: on an exact hit with the GT bit also set it
returns `slot + 1` tagged Lower; when `slot < 0` and the GT bit is set it
returns 0 tagged Greater; otherwise it returns `slot - 1` when `cmp ≤ 0`
and `slot` itself when `cmp > 0`, tagged Lower.  With only the GT bit set
it returns `slot + 1` tagged Greater.  With neither bit set a miss returns
-1. -/
theorem find_leaf_behaviour (count : Nat) (slot cmp : Int) (flags : Nat)
    (h : 0 < count) :
    (cmp = 0 ∧ (flags = 0 ∨ flags &&& kFindExactMatch ≠ 0) →
      find_leaf count slot cmp flags = (slot, 0)) ∧
    (¬(cmp = 0 ∧ (flags = 0 ∨ flags &&& kFindExactMatch ≠ 0)) →
      flags &&& kFindLtMatch ≠ 0 → cmp = 0 → flags &&& kFindGtMatch ≠ 0 →
      find_leaf count slot cmp flags = (slot + 1, kLower)) ∧
    (flags &&& kFindLtMatch ≠ 0 → ¬(cmp = 0 ∧ flags &&& kFindGtMatch ≠ 0) →
      slot < 0 → flags &&& kFindGtMatch ≠ 0 →
      find_leaf count slot cmp flags = (0, kGreater)) ∧
    (¬(cmp = 0 ∧ (flags = 0 ∨ flags &&& kFindExactMatch ≠ 0)) →
      flags &&& kFindLtMatch ≠ 0 → ¬(cmp = 0 ∧ flags &&& kFindGtMatch ≠ 0) →
      ¬(slot < 0 ∧ flags &&& kFindGtMatch ≠ 0) → cmp ≤ 0 →
      find_leaf count slot cmp flags = (slot - 1, kLower)) ∧
    (¬(cmp = 0 ∧ (flags = 0 ∨ flags &&& kFindExactMatch ≠ 0)) →
      flags &&& kFindLtMatch ≠ 0 → ¬(slot < 0 ∧ flags &&& kFindGtMatch ≠ 0) →
      0 < cmp →
      find_leaf count slot cmp flags = (slot, kLower)) ∧
    (¬(cmp = 0 ∧ (flags = 0 ∨ flags &&& kFindExactMatch ≠ 0)) →
      flags &&& kFindLtMatch = 0 → flags &&& kFindGtMatch ≠ 0 →
      find_leaf count slot cmp flags = (slot + 1, kGreater)) ∧
    (flags &&& kFindLtMatch = 0 → flags &&& kFindGtMatch = 0 → cmp ≠ 0 →
      find_leaf count slot cmp flags = (-1, 0)) := by
  have hc : ¬(count = 0) := Nat.pos_iff_ne_zero.mp h
  refine ⟨?_, ?_, ?_, ?_, ?_, ?_, ?_⟩ <;> intros <;> simp only [find_leaf] <;>
    split_ifs <;> first | rfl | (exfalso; tauto) | (exfalso; omega)

/-- C5 witness: with one key in the leaf, LT flag only, and `find_child`
reporting slot 0 with `cmp = 1`, the amended behaviour gives slot 0 tagged
Lower. -/
theorem find_leaf_behaviour_witness :
    0 < 1 ∧ find_leaf 1 0 1 kFindLtMatch = (0, kLower) :=
  ⟨Nat.one_pos,
    (find_leaf_behaviour 1 0 1 kFindLtMatch Nat.one_pos).2.2.2.2.1
      (by decide) (by decide) (by decide) (by decide)⟩

/-- C6 counterexample: a header with valid magic, version tuple
`(0, 9, 9)` — lexicographically below the claimed minimum `(1, 0, 9)` —
and a file version equal to the current one is accepted by
`LocalEnvironment::open`, while the claim demands InvalidFileVersion for
every tuple that is 1.0.9 or lower. -/
theorem open_accepts_version_below_1_0_9 :
    ((0 : Nat) < 1 ∨ (0 = 1 ∧ ((9 : Nat) < 0 ∨ (9 = 0 ∧ (9 : Nat) ≤ 9)))) ∧
    (local_env_open ⟨72, 65, 77, 0, 0, 9, 9, 3⟩ 3 true).status = HamStatus.ok := by
  decide

/-- C6 (amended): `LocalEnvironment::open` validates the first 512 bytes
before any further loading: a magic other than `"HAM\x00"` yields
InvalidFileHeader; a file version different from the current one yields
InvalidFileVersion; a version tuple of the exact form `1.0.rev` with
`rev ≤ 9` yields InvalidFileVersion; and on every failure the device is
closed again and no header page, page manager or journal is
established. -/
theorem local_env_open_validation (hdr : EnvFileHeader) (fver : Nat) (er : Bool) :
    (¬(hdr.magic0 = 72 ∧ hdr.magic1 = 65 ∧ hdr.magic2 = 77 ∧ hdr.magic3 = 0) →
      (local_env_open hdr fver er).status = .invFileHeader) ∧
    ((hdr.magic0 = 72 ∧ hdr.magic1 = 65 ∧ hdr.magic2 = 77 ∧ hdr.magic3 = 0) →
      hdr.verFile ≠ fver →
      (local_env_open hdr fver er).status = .invFileVersion) ∧
    ((hdr.magic0 = 72 ∧ hdr.magic1 = 65 ∧ hdr.magic2 = 77 ∧ hdr.magic3 = 0) →
      hdr.verFile = fver → hdr.verMaj = 1 → hdr.verMin = 0 → hdr.verRev ≤ 9 →
      (local_env_open hdr fver er).status = .invFileVersion) ∧
    ((local_env_open hdr fver er).status ≠ .ok →
      (local_env_open hdr fver er).deviceOpen = false ∧
      (local_env_open hdr fver er).headerPageLoaded = false ∧
      (local_env_open hdr fver er).pageManagerCreated = false ∧
      (local_env_open hdr fver er).journalOpened = false) := by
  refine ⟨?_, ?_, ?_, ?_⟩
  · intro hm
    simp only [local_env_open]
    split_ifs
    all_goals rfl
  · intro hm hv
    simp only [local_env_open]
    split_ifs
    all_goals rfl
  · intro hm hv h1 h2 h3
    simp only [local_env_open]
    split_ifs with hA hB
    · rfl
    · rfl
    · exact absurd ⟨h1, h2, h3⟩ hB
  · intro hst
    revert hst
    simp only [local_env_open]
    split_ifs <;> intro hst <;>
      first | exact ⟨rfl, rfl, rfl, rfl⟩ | (exfalso; exact hst rfl)

/-- C6 witness: a valid-magic header with version `1.0.5` and matching file
version 3 is rejected with InvalidFileVersion and leaves no environment
state behind. -/
theorem local_env_open_validation_witness :
    (local_env_open ⟨72, 65, 77, 0, 1, 0, 5, 3⟩ 3 true).status = HamStatus.invFileVersion ∧
    (local_env_open ⟨72, 65, 77, 0, 1, 0, 5, 3⟩ 3 true).deviceOpen = false :=
  ⟨(local_env_open_validation ⟨72, 65, 77, 0, 1, 0, 5, 3⟩ 3 true).2.2.1
      (by decide) rfl rfl rfl (by decide),
    ((local_env_open_validation ⟨72, 65, 77, 0, 1, 0, 5, 3⟩ 3 true).2.2.2
      (by decide)).1⟩

/-- A parameter-loop failure never carries the success status. -/
theorem create_db_parse_params_error_ne_ok (rn : Bool) :
    ∀ (params : List HamParam) (acc : HamKeyType × Nat × Nat) (st : HamStatus),
      create_db_parse_params rn params acc = .error st → st ≠ HamStatus.ok := by
  intro params
  induction params with
  | nil =>
    intro acc st h
    simp [create_db_parse_params] at h
  | cons p rest ih =>
    intro acc st h
    obtain ⟨kt, ks, rs⟩ := acc
    cases p with
    | keyType t => exact ih _ st h
    | keySize v =>
      simp only [create_db_parse_params] at h
      split_ifs at h with h1 h2 h3
      · simp only [Except.error.injEq] at h
        subst h; simp
      · simp only [Except.error.injEq] at h
        subst h; simp
      · exact ih _ st h
      · exact ih _ st h
    | recordSize v => exact ih _ st h
    | recordCompression =>
      simp only [create_db_parse_params, Except.error.injEq] at h
      subst h; simp
    | keyCompression =>
      simp only [create_db_parse_params, Except.error.injEq] at h
      subst h; simp
    | other =>
      simp only [create_db_parse_params, Except.error.injEq] at h
      subst h; simp

/-- C7: `create_db` rejects the RecordNumber flag combined with any
fixed-length key type (U8, U16, U32, Real32, Real64) with InvalidParameter
and leaves the descriptor array unchanged; and whenever a database is
successfully created with the RecordNumber flag, its key type is U64 and
its key size is 8. -/
theorem create_db_record_number_rules :
    (∀ (flags : CreateDbFlags) (dbname : Nat) (params : List HamParam)
        (descs : List Nat) (kt : HamKeyType) (ks rs : Nat),
      flags.recordNumber = true →
      create_db_parse_params true params
        (.binary, kKeySizeUnlimited, kRecordSizeUnlimited) = .ok (kt, ks, rs) →
      isFixedLengthType kt = true →
      (create_db false flags dbname params descs).status = .invParameter ∧
      (create_db false flags dbname params descs).descriptors = descs) ∧
    (∀ (ro : Bool) (flags : CreateDbFlags) (dbname : Nat)
        (params : List HamParam) (descs : List Nat),
      (create_db ro flags dbname params descs).status = .ok →
      flags.recordNumber = true →
      (create_db ro flags dbname params descs).keyType = .u64 ∧
      (create_db ro flags dbname params descs).keySize = 8) := by
  constructor
  · intro flags dbname params descs kt ks rs hrn hparse hfix
    simp only [create_db, hrn, hparse, Bool.false_eq_true, if_false]
    simp [hfix]
  · intro ro flags dbname params descs hok hrn
    by_cases h1 : ro = true
    · have hval : create_db ro flags dbname params descs =
          { status := .writeProtected, descriptors := descs, keyType := .binary,
            keySize := kKeySizeUnlimited, recSize := kRecordSizeUnlimited } := by
        simp only [create_db, hrn]
        rw [if_pos h1]
      rw [hval] at hok
      simp at hok
    · cases hp : create_db_parse_params true params
          (.binary, kKeySizeUnlimited, kRecordSizeUnlimited) with
      | error st =>
        have hval : create_db ro flags dbname params descs =
            { status := st, descriptors := descs, keyType := .binary,
              keySize := kKeySizeUnlimited, recSize := kRecordSizeUnlimited } := by
          simp only [create_db, hrn]
          rw [if_neg h1, hp]
        rw [hval] at hok
        exact absurd hok (create_db_parse_params_error_ne_ok _ _ _ _ hp)
      | ok triple =>
        obtain ⟨kt, ks, rs⟩ := triple
        by_cases h2 : isFixedLengthType kt = true
        · have hval : create_db ro flags dbname params descs =
              { status := .invParameter, descriptors := descs, keyType := .binary,
                keySize := kKeySizeUnlimited, recSize := kRecordSizeUnlimited } := by
            simp only [create_db, hrn]
            rw [if_neg h1, hp]
            dsimp only
            rw [if_pos ⟨h2, trivial⟩]
          rw [hval] at hok
          simp at hok
        · by_cases h3 : flags.otherBits = true
          · have hval : create_db ro flags dbname params descs =
                { status := .invParameter, descriptors := descs, keyType := .binary,
                  keySize := kKeySizeUnlimited, recSize := kRecordSizeUnlimited } := by
              simp only [create_db, hrn]
              rw [if_neg h1, hp]
              dsimp only
              rw [if_neg (fun hc => h2 hc.1), if_pos h3]
            rw [hval] at hok
            simp at hok
          · by_cases h4 : (descs.any fun name => decide (name ≠ 0 ∧ name = dbname)) = true
            · have hval : create_db ro flags dbname params descs =
                  { status := .databaseAlreadyExists, descriptors := descs,
                    keyType := .binary, keySize := kKeySizeUnlimited,
                    recSize := kRecordSizeUnlimited } := by
                simp only [create_db, hrn]
                rw [if_neg h1, hp]
                dsimp only
                rw [if_neg (fun hc => h2 hc.1), if_neg h3, if_pos h4]
              rw [hval] at hok
              simp at hok
            · cases hf : List.find? (fun i => decide (descs.getD i 0 = 0))
                  (List.range descs.length) with
              | none =>
                have hval : create_db ro flags dbname params descs =
                    { status := .limitsReached, descriptors := descs,
                      keyType := .binary, keySize := kKeySizeUnlimited,
                      recSize := kRecordSizeUnlimited } := by
                  simp only [create_db, hrn]
                  rw [if_neg h1, hp]
                  dsimp only
                  rw [if_neg (fun hc => h2 hc.1), if_neg h3, if_neg h4, hf]
                rw [hval] at hok
                simp at hok
              | some dbi =>
                have hval : create_db ro flags dbname params descs =
                    { status := .ok, descriptors := descs.set dbi dbname,
                      keyType := .u64, keySize := 8, recSize := rs } := by
                  simp only [create_db, hrn]
                  rw [if_neg h1, hp]
                  dsimp only
                  rw [if_neg (fun hc => h2 hc.1), if_neg h3, if_neg h4, hf]
                  dsimp only
                  rw [if_pos trivial, if_pos trivial]
                rw [hval]
                exact ⟨rfl, rfl⟩

/-- C7 witness: creating database 7 with the RecordNumber flag and key type
U8 is rejected with InvalidParameter leaving the (single, free) descriptor
slot untouched, while creating it without a key-type parameter succeeds
with key type U64 and key size 8. -/
theorem create_db_record_number_rules_witness :
    ((create_db false ⟨true, false, false, false, false⟩ 7
        [HamParam.keyType HamKeyType.u8] [0]).status = HamStatus.invParameter ∧
      (create_db false ⟨true, false, false, false, false⟩ 7
        [HamParam.keyType HamKeyType.u8] [0]).descriptors = [0]) ∧
    ((create_db false ⟨true, false, false, false, false⟩ 7 [] [0]).keyType = HamKeyType.u64 ∧
      (create_db false ⟨true, false, false, false, false⟩ 7 [] [0]).keySize = 8) :=
  ⟨create_db_record_number_rules.1 ⟨true, false, false, false, false⟩ 7
      [HamParam.keyType HamKeyType.u8] [0] .u8 kKeySizeUnlimited kRecordSizeUnlimited
      rfl rfl rfl,
    create_db_record_number_rules.2 false ⟨true, false, false, false, false⟩ 7 [] [0]
      (by decide) rfl⟩

/-- C8: the extended-key threshold of the variable-length key list is 64
bytes at page size 1024, 128 bytes up to 8 KiB and 256 bytes beyond; and in
every node accepted by the key list's integrity check, each key larger than
the threshold carries the kExtendedKey flag, and each extended key holds a
non-zero 8-byte blob id inline. -/
theorem extended_key_threshold_and_integrity :
    (∀ page_size : Nat,
      (page_size = 1024 → extended_threshold_init 0 page_size = 64) ∧
      (page_size ≠ 1024 → page_size ≤ 1024 * 8 → extended_threshold_init 0 page_size = 128) ∧
      (page_size > 1024 * 8 → extended_threshold_init 0 page_size = 256)) ∧
    (∀ (st : UpfrontIndex) (count threshold : Nat)
        (blobs cache : Nat → Option (List Nat)),
      BinaryKeyList.check_integrity st count threshold blobs cache = true →
      ∀ i, i < count →
        (BinaryKeyList.get_key_size st i > threshold →
          BinaryKeyList.get_key_flags st i &&& kExtendedKey ≠ 0) ∧
        (BinaryKeyList.get_key_flags st i &&& kExtendedKey ≠ 0 →
          BinaryKeyList.get_extended_blob_id st i ≠ 0)) := by
  constructor
  · intro p
    refine ⟨?_, ?_, ?_⟩
    · intro h
      subst h
      rfl
    · intro h1 h2
      simp [extended_threshold_init, if_neg h1, if_pos h2]
    · intro h
      have h1 : p ≠ 1024 := by omega
      have h2 : ¬(p ≤ 1024 * 8) := by omega
      simp [extended_threshold_init, if_neg h1, if_neg h2]
  · intro st count threshold blobs cache hchk i hi
    simp only [BinaryKeyList.check_integrity] at hchk
    have hone := List.all_eq_true.mp hchk i (List.mem_range.mpr hi)
    refine ⟨?_, ?_⟩
    · intro hgt
      by_contra h0
      rw [if_pos ⟨hgt, h0⟩] at hone
      exact Bool.false_ne_true hone
    · intro hext
      by_contra h0
      rw [if_neg (fun hc => hext hc.2), if_pos hext, if_pos h0] at hone
      exact Bool.false_ne_true hone

/-- C8 witness: the threshold at page size 1024 is 64, and on a concrete
node with one extended key of size 100 (blob id 1, loadable) that passes
the integrity check, the theorem yields the extended flag and a non-zero
blob id. -/
theorem extended_key_threshold_and_integrity_witness :
    extended_threshold_init 0 1024 = 64 ∧
    BinaryKeyList.get_key_flags c8_node 0 &&& kExtendedKey ≠ 0 ∧
    BinaryKeyList.get_extended_blob_id c8_node 0 ≠ 0 :=
  ⟨(extended_key_threshold_and_integrity.1 1024).1 rfl,
    (extended_key_threshold_and_integrity.2 c8_node 1 64
      (fun b => if b = 1 then some [] else none) (fun _ => none)
      (by decide) 0 (by decide)).1 (by decide),
    (extended_key_threshold_and_integrity.2 c8_node 1 64
      (fun b => if b = 1 then some [] else none) (fun _ => none)
      (by decide) 0 (by decide)).2
      ((extended_key_threshold_and_integrity.2 c8_node 1 64
        (fun b => if b = 1 then some [] else none) (fun _ => none)
        (by decide) 0 (by decide)).1 (by decide))⟩

/-- C9: in the compiled default node layout, `DefaultNodeImpl::insert`
leaves the node completely unchanged for every slot and key (its body is
preprocessor-disabled), and `DefaultNodeImpl::find_child` returns slot 0
with zero key comparisons performed. -/
theorem default_node_insert_noop_and_find_child_zero :
    (∀ (self : DefaultNodeImpl) (slot : Nat) (key : List Nat),
      self.insert slot key = self) ∧
    (∀ (self : DefaultNodeImpl) (key : List Nat),
      self.find_child key = (0, 0)) :=
  ⟨fun _ _ _ => rfl, fun _ _ => rfl⟩

/-- C10: setting the inline duplicate counter does not round-trip: the
setter masks the old byte with `0xf0` instead of `0x80`, so with a prior
counter byte `0x10` (a stale counter bit, kExtendedDuplicates clear),
writing count 1 reads back as 17, not 1. -/
theorem set_inline_record_count_no_roundtrip :
    get_inline_record_count (set_inline_record_count [0x10] 0 1) 0 = 17 ∧
    get_inline_record_count (set_inline_record_count [0x10] 0 1) 0 ≠ 1 := by
  decide

end Hamsterdb
